import Mathlib

/-!
Verification of the PCF8583 RTC emulation (`src/vice/src/rtc/pcf8583.c`).

The C module implements an I2C bit-banged protocol state machine, a register
bank with packed time encodings, and a running/halted time-offset model.
The calendar-arithmetic backend (`rtc.c`) and the persistence backend are
external collaborators; they are modelled as an abstract `TimeBackend`
structure of opaque functions, except for `rtc_get_latch`, whose semantics
the specification fixes (running virtual time = host time + offset).

Machine integers: the C `BYTE` fields are modelled as `Nat` with explicit
`% 256` where the C code relies on unsigned-char wraparound (the
register-pointer auto-increment).  `time_t` values are modelled as `Int`.
-/

/-- Protocol states of the bus state machine (the `PCF8583_*` enum). -/
inductive PState where
  | IDLE
  | START_WAIT
  | GET_ADDRESS
  | ADDRESS_WRITE_ACK
  | ADDRESS_READ_ACK
  | GET_REG_NR
  | REG_NR_ACK
  | READ_REGS
  | READ_ACK
  | WRITE_REGS
  | WRITE_ACK
deriving DecidableEq

/-- Modelled from the spec: `PCF8583_REG_SIZE` is declared in the header
`pcf8583.h`, which is not part of the given sources; the spec fixes the
register bank at 16 control/time/alarm slots (addresses 0-15). -/
def PCF8583_REG_SIZE : Nat := 16

/-- Modelled from the spec: `PCF8583_RAM_SIZE` is declared in the header
`pcf8583.h`, which is not part of the given sources; the source comment
("240 x 8-bit RAM", "registers 16-255: RAM") and the spec's combined
16 + RAM-size address space fix it at 240, so registers + RAM fill the
whole 256-value range of the byte-typed register pointer. -/
def PCF8583_RAM_SIZE : Nat := 240

/-- Modelled from the spec: `rtc_get_latch` lives in the external time
backend (`rtc.c`, not part of the given sources).  The spec fixes its
meaning: the running virtual time is host time plus the signed offset
("RUNNING (authoritative time = host time + offset)").  The host wall
clock is passed explicitly as `now`. -/
def rtc_get_latch (now offset : Int) : Int := now + offset

/-- The external calendar-arithmetic backend (`rtc.c`): opaque field
accessors over virtual time values.  Getter arguments mirror the C call
sites (`value`/`latch`, then the BCD flag); setters take the incoming
byte, the offset (plus the host time `now`, implicit in the C backend)
or the latch, and the BCD flag. -/
structure TimeBackend where
  get_centisecond : Int → Nat → Nat
  get_second : Int → Nat → Nat
  get_minute : Int → Nat → Nat
  get_hour : Int → Nat → Nat
  get_hour_am_pm : Int → Nat → Nat
  get_day_of_month : Int → Nat → Nat
  get_month : Int → Nat → Nat
  get_year : Int → Nat → Nat
  get_weekday : Int → Nat
  set_second : Nat → Int → Int → Nat → Int
  set_minute : Nat → Int → Int → Nat → Int
  set_hour : Nat → Int → Int → Nat → Int
  set_hour_am_pm : Nat → Int → Int → Nat → Int
  set_day_of_month : Nat → Int → Int → Nat → Int
  set_month : Nat → Int → Int → Nat → Int
  set_year : Nat → Int → Int → Nat → Int
  set_weekday : Int → Int → Int → Int
  set_latched_second : Nat → Int → Nat → Int
  set_latched_minute : Nat → Int → Nat → Int
  set_latched_hour : Nat → Int → Nat → Int
  set_latched_hour_am_pm : Nat → Int → Nat → Int
  set_latched_day_of_month : Nat → Int → Nat → Int
  set_latched_month : Nat → Int → Nat → Int
  set_latched_year : Nat → Int → Nat → Int
  set_latched_weekday : Int → Int → Int

/-- The chip context (`rtc_pcf8583_t`).  Byte-typed C fields are `Nat`s
that the code keeps below 256; `time_t` fields are `Int`s.  The `device`
string plays no role in the verified operations and is omitted. -/
structure Ctx where
  clock_halt : Bool
  clock_halt_latch : Int
  am_pm : Bool
  offset : Int
  old_offset : Int
  clock_regs : List Nat
  old_clock_regs : List Nat
  clock_regs_for_read : List Nat
  ram : List Nat
  old_ram : List Nat
  state : PState
  reg : Nat
  reg_ptr : Nat
  bit : Nat
  data_line : Nat
  sclk_line : Nat
deriving DecidableEq

/-- `pcf8583_i2c_start`: build the 16-byte read snapshot.  Register order
(addresses 0-15): control verbatim, live centiseconds, seconds, minutes,
packed hours, year+day-of-month, weekday+month, timer-days forced to 0,
then the 8 alarm registers verbatim. -/
def pcf8583_i2c_start (B : TimeBackend) (now : Int) (c : Ctx) : Ctx :=
  let latch : Int := if c.clock_halt then c.clock_halt_latch else rtc_get_latch now c.offset
  let hours : Nat :=
    if c.am_pm then
      let tmp := 0x80 ||| B.get_hour_am_pm latch 1
      if tmp &&& 0x20 ≠ 0 then (tmp &&& 0xdf) ||| 0x40 else tmp
    else B.get_hour latch 1
  let ymd : Nat := ((B.get_year latch 1 &&& 3) <<< 6) ||| B.get_day_of_month latch 1
  let wdm : Nat := (((B.get_weekday latch + 1) &&& 7) <<< 5) ||| B.get_month latch 1
  { c with clock_regs_for_read :=
      [c.clock_regs.getD 0 0,
       B.get_centisecond now 1,
       B.get_second latch 1,
       B.get_minute latch 1,
       hours,
       ymd,
       wdm,
       0,
       c.clock_regs.getD 8 0, c.clock_regs.getD 9 0, c.clock_regs.getD 10 0,
       c.clock_regs.getD 11 0, c.clock_regs.getD 12 0, c.clock_regs.getD 13 0,
       c.clock_regs.getD 14 0, c.clock_regs.getD 15 0] }

/-- `pcf8583_read_register`: addresses below 16 come from the snapshot,
the rest from RAM at `addr - 16`. -/
def pcf8583_read_register (c : Ctx) (addr : Nat) : Nat :=
  if addr < PCF8583_REG_SIZE then c.clock_regs_for_read.getD addr 0
  else c.ram.getD (addr - PCF8583_REG_SIZE) 0

/-- `pcf8583_write_register`: dispatch on the register address.
Case numerals follow the `PCF8583_REG_*` macros: 0 control, 1 centiseconds,
2 seconds, 3 minutes, 4 hours, 5 year+day, 6 weekday+month, 7 timer-days,
8-15 alarm bytes, 16+ RAM. -/
def pcf8583_write_register (B : TimeBackend) (now : Int) (c : Ctx) (addr v : Nat) : Ctx :=
  match addr with
  | 3 =>
      if c.clock_halt then
        { c with clock_halt_latch := B.set_latched_minute v c.clock_halt_latch 1 }
      else
        { c with offset := B.set_minute v c.offset now 1 }
  | 0 =>
      let c' :=
        if c.clock_halt then
          if v &&& 0x80 = 0 then
            { c with offset := c.offset - (rtc_get_latch now 0 - (c.clock_halt_latch - c.offset)),
                     clock_halt := false }
          else c
        else
          if v &&& 0x80 ≠ 0 then
            { c with clock_halt := true, clock_halt_latch := rtc_get_latch now c.offset }
          else c
      { c' with clock_regs := c'.clock_regs.set 0 v }
  | 1 => c
  | 7 => c
  | 2 =>
      if c.clock_halt then
        { c with clock_halt_latch := B.set_latched_second v c.clock_halt_latch 1 }
      else
        { c with offset := B.set_second v c.offset now 1 }
  | 4 =>
      if v &&& 0x80 ≠ 0 then
        if c.clock_halt then
          { c with clock_halt_latch := B.set_latched_hour_am_pm (v &&& 0x3f) c.clock_halt_latch 1,
                   am_pm := true }
        else
          { c with offset := B.set_hour_am_pm (v &&& 0x3f) c.offset now 1, am_pm := true }
      else
        if c.clock_halt then
          { c with clock_halt_latch := B.set_latched_hour (v &&& 0x3f) c.clock_halt_latch 1,
                   am_pm := false }
        else
          { c with offset := B.set_hour (v &&& 0x3f) c.offset now 1, am_pm := false }
  | 5 =>
      if c.clock_halt then
        let l1 := B.set_latched_year ((v &&& 0xc0) >>> 6) c.clock_halt_latch 1
        let l2 := B.set_latched_day_of_month (v &&& 0x3f) l1 1
        { c with clock_halt_latch := l2 }
      else
        let o1 := B.set_year ((v &&& 0xc0) >>> 6) c.offset now 1
        let o2 := B.set_day_of_month (v &&& 0x3f) o1 now 1
        { c with offset := o2 }
  | 6 =>
      let wd : Int := (((v &&& 0xe0) >>> 5 : Nat) : Int) - 1
      if c.clock_halt then
        let l1 := B.set_latched_weekday wd c.clock_halt_latch
        let l2 := B.set_latched_month (v &&& 0x1f) l1 1
        { c with clock_halt_latch := l2 }
      else
        let o1 := B.set_weekday wd c.offset now
        let o2 := B.set_month (v &&& 0x1f) o1 now 1
        { c with offset := o2 }
  | 8 | 9 | 10 | 11 | 12 | 13 | 14 | 15 =>
      { c with clock_regs := c.clock_regs.set addr v }
  | _ =>
      { c with ram := c.ram.set (addr - PCF8583_REG_SIZE) v }

/-- `pcf8583_next_address_bit`: shift a data bit in MSB-first; on the 8th
bit, compare against the device addresses 0xa0/0xa1. -/
def pcf8583_next_address_bit (c : Ctx) : Ctx :=
  let c := { c with reg := c.reg ||| (c.data_line <<< (7 - c.bit)), bit := c.bit + 1 }
  if c.bit = 8 then
    if c.reg = 0xa0 then { c with state := .ADDRESS_WRITE_ACK }
    else if c.reg = 0xa1 then { c with state := .ADDRESS_READ_ACK }
    else { c with state := .IDLE }
  else c

/-- `pcf8583_next_reg_nr_bit`: accumulate the register-pointer byte; on the
8th bit commit it to `reg_ptr`. -/
def pcf8583_next_reg_nr_bit (c : Ctx) : Ctx :=
  let c := { c with reg := c.reg ||| (c.data_line <<< (7 - c.bit)), bit := c.bit + 1 }
  if c.bit = 8 then { c with state := .REG_NR_ACK, reg_ptr := c.reg }
  else c

/-- `pcf8583_next_read_bit`: count an emitted bit; after 8 go to `READ_ACK`. -/
def pcf8583_next_read_bit (c : Ctx) : Ctx :=
  let c := { c with bit := c.bit + 1 }
  if c.bit = 8 then { c with state := .READ_ACK } else c

/-- `pcf8583_next_write_bit`: accumulate a data byte; on the 8th bit commit
it through `pcf8583_write_register` at `reg_ptr` and advance the pointer
(`++reg_ptr` on the byte-typed field, hence mod 256). -/
def pcf8583_next_write_bit (B : TimeBackend) (now : Int) (c : Ctx) : Ctx :=
  let c := { c with reg := c.reg ||| (c.data_line <<< (7 - c.bit)), bit := c.bit + 1 }
  if c.bit = 8 then
    let c := pcf8583_write_register B now c c.reg_ptr c.reg
    { c with state := .WRITE_ACK, reg_ptr := (c.reg_ptr + 1) % 256 }
  else c

/-- `pcf8583_validate_read_ack`: sample the master's ack on the data line;
on ack advance the pointer (byte increment, mod 256) and load the next
byte, on nack return to `IDLE`. -/
def pcf8583_validate_read_ack (c : Ctx) : Ctx :=
  if c.data_line = 0 then
    let c := { c with state := .READ_REGS, bit := 0, reg_ptr := (c.reg_ptr + 1) % 256 }
    { c with reg := pcf8583_read_register c c.reg_ptr }
  else { c with state := .IDLE }

/-- `pcf8583_set_clk_line`: redundant sets are no-ops; all protocol
dispatch happens on the falling edge. -/
def pcf8583_set_clk_line (B : TimeBackend) (now : Int) (c : Ctx) (data : Nat) : Ctx :=
  let val : Nat := if data ≠ 0 then 1 else 0
  if c.sclk_line = val then c
  else
    let c :=
      if val = 0 then
        match c.state with
        | .START_WAIT => { c with state := .GET_ADDRESS }
        | .GET_ADDRESS => pcf8583_next_address_bit c
        | .GET_REG_NR => pcf8583_next_reg_nr_bit c
        | .READ_REGS => pcf8583_next_read_bit c
        | .WRITE_REGS => pcf8583_next_write_bit B now c
        | .READ_ACK => pcf8583_validate_read_ack c
        | .ADDRESS_READ_ACK =>
            { c with state := .READ_REGS, reg := pcf8583_read_register c c.reg_ptr, bit := 0 }
        | .REG_NR_ACK => { c with state := .WRITE_REGS, reg := 0, bit := 0 }
        | .WRITE_ACK => { c with state := .WRITE_REGS, reg := 0, bit := 0 }
        | .ADDRESS_WRITE_ACK => { c with state := .GET_REG_NR, reg := 0, bit := 0 }
        | .IDLE => c
      else c
    { c with sclk_line := val }

/-- `pcf8583_set_data_line`: redundant sets are no-ops; with the clock high
a rising data line is a STOP (back to `IDLE`), a falling one is a START
(capture the snapshot, reset the shift state, enter `START_WAIT`). -/
def pcf8583_set_data_line (B : TimeBackend) (now : Int) (c : Ctx) (data : Nat) : Ctx :=
  let val : Nat := if data ≠ 0 then 1 else 0
  if c.data_line = val then c
  else
    let c :=
      if c.sclk_line ≠ 0 then
        if val ≠ 0 then { c with state := .IDLE }
        else { pcf8583_i2c_start B now c with state := .START_WAIT, reg := 0, bit := 0 }
      else c
    { c with data_line := val }

/-- `pcf8583_read_data_line`: the bit the chip drives.  The C function
performs no store; it is embedded as a state-passing pair to make that
frame property a theorem rather than a convention. -/
def pcf8583_read_data_line (c : Ctx) : Nat × Ctx :=
  match c.state with
  | .READ_REGS => ((c.reg &&& (1 <<< (7 - c.bit))) >>> (7 - c.bit), c)
  | .ADDRESS_READ_ACK => (0, c)
  | .ADDRESS_WRITE_ACK => (0, c)
  | .REG_NR_ACK => (0, c)
  | .READ_ACK => (0, c)
  | .WRITE_ACK => (0, c)
  | _ => (1, c)

/-- The payload of a `rtc_save_context` call. -/
structure SaveCall where
  ram : List Nat
  regs : List Nat
  offset : Int
deriving DecidableEq

/-- `memcmp`-as-used: the C code only tests whether the blocks differ. -/
def bytesDiffer : List Nat → List Nat → Bool
  | [], [] => false
  | [], _ :: _ => true
  | _ :: _, [] => true
  | a :: as, b :: bs => a != b || bytesDiffer as bs

/-- `pcf8583_destroy`: when saving is requested and RAM, registers or the
offset differ from the baseline copies, invoke the persistence save with
the current state; otherwise no save happens. -/
def pcf8583_destroy (c : Ctx) (save : Bool) : Option SaveCall :=
  if save then
    if bytesDiffer c.ram c.old_ram || bytesDiffer c.clock_regs c.old_clock_regs
        || decide (c.offset ≠ c.old_offset) then
      some ⟨c.ram, c.clock_regs, c.offset⟩
    else none
  else none

/-- The fresh context built by `pcf8583_init` when no persisted state is
found: zeroed RAM/registers/offset (copied to the baselines), `IDLE`,
both lines high, pointer 0. -/
def initCtx : Ctx :=
  { clock_halt := false
    clock_halt_latch := 0
    am_pm := false
    offset := 0
    old_offset := 0
    clock_regs := List.replicate PCF8583_REG_SIZE 0
    old_clock_regs := List.replicate PCF8583_REG_SIZE 0
    clock_regs_for_read := List.replicate PCF8583_REG_SIZE 0
    ram := List.replicate PCF8583_RAM_SIZE 0
    old_ram := List.replicate PCF8583_RAM_SIZE 0
    state := .IDLE
    reg := 0
    reg_ptr := 0
    bit := 0
    data_line := 1
    sclk_line := 1 }

/-- A bus-line event: drive the clock line or the data line to a level. -/
inductive Call where
  | clk (d : Nat)
  | data (d : Nat)
deriving DecidableEq

/-- An event paired with the host wall-clock time at which it arrives;
letting every event carry its own time models host time advancing
arbitrarily between bus operations. -/
abbrev Ev := Int × Call

/-- One bus operation applied to the context. -/
def step (B : TimeBackend) (now : Int) : Call → Ctx → Ctx
  | .clk d, c => pcf8583_set_clk_line B now c d
  | .data d, c => pcf8583_set_data_line B now c d

/-- Run a sequence of timed bus events. -/
def run (B : TimeBackend) (evs : List Ev) (c : Ctx) : Ctx :=
  evs.foldl (fun c e => step B e.1 e.2 c) c

/-- Bit `i` of byte `v` as the 0/1 level the bus master drives. -/
def tb (v i : Nat) : Nat := if v.testBit i then 1 else 0

/-- Present one data bit and pulse the clock: set data while the clock is
low, raise the clock, drop it (the falling edge samples the bit). -/
def feed3 (now : Int) (b : Nat) : List Ev :=
  [(now, .data b), (now, .clk 1), (now, .clk 0)]

/-- One clock pulse with the data line untouched (an ack bit cell). -/
def ackPulse (now : Int) : List Ev :=
  [(now, .clk 1), (now, .clk 0)]

/-- Clock the eight bits of byte `v` in, MSB first. -/
def feedByteEvs (now : Int) (v : Nat) : List Ev :=
  feed3 now (tb v 7) ++ feed3 now (tb v 6) ++ feed3 now (tb v 5) ++ feed3 now (tb v 4) ++
  feed3 now (tb v 3) ++ feed3 now (tb v 2) ++ feed3 now (tb v 1) ++ feed3 now (tb v 0)

/-- A complete write transaction: START, device address 0xa0, ack,
pointer byte `P`, ack, one data byte `V` (committed on its 8th falling
edge, which also produces the final ack state). -/
def writeTransactionEvs (now : Int) (P V : Nat) : List Ev :=
  [(now, .data 0), (now, .clk 0)] ++ feedByteEvs now 0xa0 ++ ackPulse now ++
  feedByteEvs now P ++ ackPulse now ++ feedByteEvs now V

/-- A concrete stub time backend used for closed evaluations. -/
def testB : TimeBackend where
  get_centisecond := fun _ _ => 11
  get_second := fun _ _ => 0x22
  get_minute := fun _ _ => 0x33
  get_hour := fun _ _ => 0x14
  get_hour_am_pm := fun _ _ => 0x25
  get_day_of_month := fun _ _ => 0x07
  get_month := fun _ _ => 0x09
  get_year := fun _ _ => 2
  get_weekday := fun _ => 3
  set_second := fun v o _ _ => o + v
  set_minute := fun v o _ _ => o + v
  set_hour := fun v o _ _ => o + v
  set_hour_am_pm := fun v o _ _ => o + v
  set_day_of_month := fun v o _ _ => o + v
  set_month := fun v o _ _ => o + v
  set_year := fun v o _ _ => o + v
  set_weekday := fun v o _ => o + v
  set_latched_second := fun v l _ => l + v
  set_latched_minute := fun v l _ => l + v
  set_latched_hour := fun v l _ => l + v
  set_latched_hour_am_pm := fun v l _ => l + v
  set_latched_day_of_month := fun v l _ => l + v
  set_latched_month := fun v l _ => l + v
  set_latched_year := fun v l _ => l + v
  set_latched_weekday := fun v l => l + v

set_option maxRecDepth 100000

/-- Extracting bit `k` the way `pcf8583_read_data_line` does it coincides
with `Nat.testBit`. -/
lemma and_shift_extract (r k : Nat) : (r &&& (1 <<< k)) >>> k = if r.testBit k then 1 else 0 := by
  rw [Nat.shiftLeft_eq, one_mul, Nat.and_two_pow, Nat.shiftRight_eq_div_pow,
    Nat.mul_div_cancel _ (Nat.two_pow_pos k)]
  cases r.testBit k <;> rfl

/-- C9: the register-write operation at address 1 (sub-second register) or
address 7 (timer-days) is the identity on the context: no register, RAM
cell, offset, halt latch or flag changes. -/
theorem pcf8583_write_ignored_regs (B : TimeBackend) (now : Int) (c : Ctx) (v : Nat) :
    pcf8583_write_register B now c 1 v = c ∧ pcf8583_write_register B now c 7 v = c :=
  ⟨rfl, rfl⟩

/-- C10: `pcf8583_read_data_line` is pure: it returns the context unchanged,
and two consecutive calls with no intervening line operation return the
same bit. -/
theorem pcf8583_read_data_line_pure (c : Ctx) :
    (pcf8583_read_data_line c).2 = c ∧
    (pcf8583_read_data_line (pcf8583_read_data_line c).2).1 = (pcf8583_read_data_line c).1 := by
  rcases c with ⟨ch, chl, ap, off, ooff, cr, ocr, crr, ram, oram, st, reg, rp, bit, dl, cl⟩
  cases st <;> exact ⟨rfl, rfl⟩

/-- C4: `pcf8583_read_data_line` returns the bit at position `7 - bit` of
the shift register in `READ_REGS`, a fixed 0 in the five ack states, and
a floating-high 1 in every other state.  This holds for every
configuration: the function ignores `bit` outside `READ_REGS`, so the
ack-state and floating clauses cover in particular the reachable ack
configurations, where `bit = 8`. -/
theorem pcf8583_read_data_line_contract (c : Ctx) :
    (c.state = .READ_REGS →
       (pcf8583_read_data_line c).1 = if c.reg.testBit (7 - c.bit) then 1 else 0) ∧
    ((c.state = .ADDRESS_WRITE_ACK ∨ c.state = .ADDRESS_READ_ACK ∨ c.state = .REG_NR_ACK ∨
        c.state = .READ_ACK ∨ c.state = .WRITE_ACK) →
       (pcf8583_read_data_line c).1 = 0) ∧
    ((c.state = .IDLE ∨ c.state = .START_WAIT ∨ c.state = .GET_ADDRESS ∨
        c.state = .GET_REG_NR ∨ c.state = .WRITE_REGS) →
       (pcf8583_read_data_line c).1 = 1) := by
  rcases c with ⟨ch, chl, ap, off, ooff, cr, ocr, crr, ram, oram, st, reg, rp, bit, dl, cl⟩
  cases st <;> simp [pcf8583_read_data_line, and_shift_extract]

/-- `bytesDiffer` (the `memcmp` use) detects exactly list inequality. -/
lemma bytesDiffer_iff (a b : List Nat) : bytesDiffer a b = true ↔ a ≠ b := by
  induction a generalizing b with
  | nil => cases b <;> simp [bytesDiffer]
  | cons x as ih =>
    cases b with
    | nil => simp [bytesDiffer]
    | cons y bs =>
      simp only [bytesDiffer, Bool.or_eq_true, bne_iff_ne, ih, ne_eq, List.cons.injEq, not_and]
      tauto

/-- C8: destruction with saving requested invokes the persistence save
exactly when RAM, the registers or the offset differ from the baseline
captured at creation; otherwise (or when saving is not requested) no save
happens. -/
theorem pcf8583_destroy_save_iff (c : Ctx) (save : Bool) :
    (pcf8583_destroy c save).isSome = true ↔
      save = true ∧ (c.ram ≠ c.old_ram ∨ c.clock_regs ≠ c.old_clock_regs ∨
        c.offset ≠ c.old_offset) := by
  cases save with
  | false => simp [pcf8583_destroy]
  | true =>
    by_cases hcond : (bytesDiffer c.ram c.old_ram || bytesDiffer c.clock_regs c.old_clock_regs
        || decide (c.offset ≠ c.old_offset)) = true
    · simp only [pcf8583_destroy, if_true, hcond, Option.isSome_some, true_iff]
      revert hcond
      simp [bytesDiffer_iff]
      tauto
    · simp only [pcf8583_destroy, if_true]
      rw [if_neg (by simpa using hcond)]
      revert hcond
      simp [bytesDiffer_iff]
      tauto

/-- C3: halting (control write with bit 7 set) latches the running virtual
time; resuming later (control write with bit 7 clear), after arbitrary
host-time advance and no intervening time-field writes, rebuilds the
offset by the documented formula, so the virtual time right after resume
equals the virtual time at the halt instant. -/
theorem pcf8583_halt_resume_no_jump (B : TimeBackend) (c : Ctx) (now1 now2 : Int)
    (v1 v2 : Nat) (hrun : c.clock_halt = false)
    (hv1 : v1 &&& 0x80 ≠ 0) (hv2 : v2 &&& 0x80 = 0) :
    (pcf8583_write_register B now1 c 0 v1).clock_halt = true ∧
    (pcf8583_write_register B now1 c 0 v1).clock_halt_latch = rtc_get_latch now1 c.offset ∧
    (pcf8583_write_register B now2 (pcf8583_write_register B now1 c 0 v1) 0 v2).clock_halt
      = false ∧
    (pcf8583_write_register B now2 (pcf8583_write_register B now1 c 0 v1) 0 v2).offset =
      (pcf8583_write_register B now1 c 0 v1).offset -
        (rtc_get_latch now2 0 -
          ((pcf8583_write_register B now1 c 0 v1).clock_halt_latch -
            (pcf8583_write_register B now1 c 0 v1).offset)) ∧
    rtc_get_latch now2
        (pcf8583_write_register B now2 (pcf8583_write_register B now1 c 0 v1) 0 v2).offset =
      rtc_get_latch now1 c.offset := by
  have h1 : pcf8583_write_register B now1 c 0 v1 =
      { c with clock_halt := true, clock_halt_latch := rtc_get_latch now1 c.offset,
               clock_regs := c.clock_regs.set 0 v1 } := by
    simp [pcf8583_write_register, hrun, hv1]
  have h2 : pcf8583_write_register B now2 (pcf8583_write_register B now1 c 0 v1) 0 v2 =
      { c with clock_halt := false,
               clock_halt_latch := rtc_get_latch now1 c.offset,
               offset := c.offset -
                 (rtc_get_latch now2 0 - (rtc_get_latch now1 c.offset - c.offset)),
               clock_regs := (c.clock_regs.set 0 v1).set 0 v2 } := by
    rw [h1]
    simp [pcf8583_write_register, hv2]
  rw [h2, h1]
  refine ⟨rfl, rfl, rfl, rfl, ?_⟩
  simp only [rtc_get_latch]
  omega

theorem pcf8583_halt_resume_no_jump_witness :
    initCtx.clock_halt = false ∧ (0x80 : Nat) &&& 0x80 ≠ 0 ∧ (0 : Nat) &&& 0x80 = 0 ∧
    rtc_get_latch 100
        (pcf8583_write_register testB 100 (pcf8583_write_register testB 5 initCtx 0 0x80) 0 0).offset =
      rtc_get_latch 5 initCtx.offset :=
  ⟨rfl, by decide, by decide,
   (pcf8583_halt_resume_no_jump testB initCtx 5 100 0x80 0 rfl (by decide) (by decide)).2.2.2.2⟩

/-- Any byte or-ed with 0x80 has bit 7 set. -/
lemma or80_testBit7 (x : Nat) : (0x80 ||| x).testBit 7 = true := by
  simp [Nat.testBit_or, show Nat.testBit 0x80 7 = true from by decide]

/-- The PM remap keeps bit 7. -/
lemma remap_testBit7 (x : Nat) : ((x &&& 0xdf) ||| 0x40).testBit 7 = x.testBit 7 := by
  simp [Nat.testBit_or, Nat.testBit_and,
    show Nat.testBit 0xdf 7 = true from by decide,
    show Nat.testBit 0x40 7 = false from by decide]

/-- The PM remap clears bit 5. -/
lemma remap_and20 (x : Nat) : ((x &&& 0xdf) ||| 0x40) &&& 0x20 = 0 := by
  have h5 : ((x &&& 0xdf) ||| 0x40).testBit 5 = false := by
    simp [Nat.testBit_or, Nat.testBit_and,
      show Nat.testBit 0xdf 5 = false from by decide,
      show Nat.testBit 0x40 5 = false from by decide]
  rw [show (0x20 : Nat) = 2 ^ 5 from by norm_num, Nat.and_two_pow, h5]
  rfl

/-- The PM remap sets bit 6. -/
lemma remap_and40 (x : Nat) : ((x &&& 0xdf) ||| 0x40) &&& 0x40 = 0x40 := by
  have h := Nat.and_two_pow ((x &&& 0xdf) ||| 0x40) 6
  have h6 : ((x &&& 0xdf) ||| 0x40).testBit 6 = true := by
    simp [Nat.testBit_or, show Nat.testBit 0x40 6 = true from by decide]
  rw [h6] at h
  norm_num at h
  exact h

/-- Setting bit 7 does not disturb bit 5. -/
lemma or80_and20 (x : Nat) : (0x80 ||| x) &&& 0x20 = x &&& 0x20 := by
  apply Nat.eq_of_testBit_eq
  intro i
  simp only [Nat.testBit_and, Nat.testBit_or]
  by_cases h : i = 5
  · subst h
    simp [show Nat.testBit 0x80 5 = false from by decide]
  · have h32 : Nat.testBit 0x20 i = false := by
      rw [show (0x20 : Nat) = 2 ^ 5 from by norm_num, Nat.testBit_two_pow]
      simp
      omega
    simp [h32]

/-- C5: with the stored 12h mode flag set, the hours byte placed in the
read snapshot at START has bit 7 set; and when the raw backend hour
encoding has bit 0x20 set, the snapshot byte instead has 0x20 cleared and
0x40 set. -/
theorem pcf8583_hours_snapshot_am_pm (B : TimeBackend) (now : Int) (c : Ctx)
    (h : c.am_pm = true) :
    ((pcf8583_i2c_start B now c).clock_regs_for_read.getD 4 0).testBit 7 = true ∧
    (B.get_hour_am_pm (if c.clock_halt then c.clock_halt_latch else rtc_get_latch now c.offset) 1
        &&& 0x20 ≠ 0 →
      (pcf8583_i2c_start B now c).clock_regs_for_read.getD 4 0 &&& 0x20 = 0 ∧
      (pcf8583_i2c_start B now c).clock_regs_for_read.getD 4 0 &&& 0x40 = 0x40) := by
  have hentry : (pcf8583_i2c_start B now c).clock_regs_for_read.getD 4 0 =
      (let tmp := 0x80 ||| B.get_hour_am_pm
          (if c.clock_halt then c.clock_halt_latch else rtc_get_latch now c.offset) 1
       if tmp &&& 0x20 ≠ 0 then (tmp &&& 0xdf) ||| 0x40 else tmp) := by
    simp [pcf8583_i2c_start, h]
  set raw := B.get_hour_am_pm
    (if c.clock_halt then c.clock_halt_latch else rtc_get_latch now c.offset) 1 with hraw
  simp only at hentry
  by_cases hc : (0x80 ||| raw) &&& 0x20 ≠ 0
  · rw [hentry, if_pos hc]
    refine ⟨by rw [remap_testBit7]; exact or80_testBit7 raw, fun _ => ⟨remap_and20 _, remap_and40 _⟩⟩
  · rw [hentry, if_neg hc]
    refine ⟨or80_testBit7 raw, fun hr => absurd ?_ hc⟩
    rw [or80_and20]
    exact hr

theorem pcf8583_hours_snapshot_am_pm_witness :
    ({ initCtx with am_pm := true } : Ctx).am_pm = true ∧
    testB.get_hour_am_pm
        (if ({ initCtx with am_pm := true } : Ctx).clock_halt
         then ({ initCtx with am_pm := true } : Ctx).clock_halt_latch
         else rtc_get_latch 0 ({ initCtx with am_pm := true } : Ctx).offset) 1 &&& 0x20 ≠ 0 ∧
    (pcf8583_i2c_start testB 0 { initCtx with am_pm := true }).clock_regs_for_read.getD 4 0
        &&& 0x20 = 0 ∧
    (pcf8583_i2c_start testB 0 { initCtx with am_pm := true }).clock_regs_for_read.getD 4 0
        &&& 0x40 = 0x40 := by
  refine ⟨rfl, by decide, ?_, ?_⟩
  · exact ((pcf8583_hours_snapshot_am_pm testB 0 { initCtx with am_pm := true } rfl).2
      (by decide)).1
  · exact ((pcf8583_hours_snapshot_am_pm testB 0 { initCtx with am_pm := true } rfl).2
      (by decide)).2

lemma run_append (B : TimeBackend) (e1 e2 : List Ev) (c : Ctx) :
    run B (e1 ++ e2) c = run B e2 (run B e1 c) := by
  simp [run, List.foldl_append]

/-- Writes to addresses 16 and above land in RAM at `addr - 16`. -/
lemma pcf8583_write_register_ram (B : TimeBackend) (now : Int) (c : Ctx) (addr v : Nat)
    (h : 16 ≤ addr) :
    pcf8583_write_register B now c addr v =
      { c with ram := c.ram.set (addr - PCF8583_REG_SIZE) v } := by
  unfold pcf8583_write_register
  split
  all_goals first | omega | rfl

/-- The register-write operation never touches the bus-protocol scalars,
the read snapshot or the baseline copies. -/
lemma pcf8583_write_register_scalars (B : TimeBackend) (now : Int) (c : Ctx) (addr v : Nat) :
    (pcf8583_write_register B now c addr v).state = c.state ∧
    (pcf8583_write_register B now c addr v).reg = c.reg ∧
    (pcf8583_write_register B now c addr v).reg_ptr = c.reg_ptr ∧
    (pcf8583_write_register B now c addr v).bit = c.bit ∧
    (pcf8583_write_register B now c addr v).data_line = c.data_line ∧
    (pcf8583_write_register B now c addr v).sclk_line = c.sclk_line ∧
    (pcf8583_write_register B now c addr v).clock_regs_for_read = c.clock_regs_for_read ∧
    (pcf8583_write_register B now c addr v).old_ram = c.old_ram ∧
    (pcf8583_write_register B now c addr v).old_clock_regs = c.old_clock_regs ∧
    (pcf8583_write_register B now c addr v).old_offset = c.old_offset := by
  by_cases h : 16 ≤ addr
  · rw [pcf8583_write_register_ram B now c addr v h]
    exact ⟨rfl, rfl, rfl, rfl, rfl, rfl, rfl, rfl, rfl, rfl⟩
  · push_neg at h
    interval_cases addr <;>
      by_cases h1 : c.clock_halt <;> by_cases h2 : v &&& 0x80 = 0 <;>
        simp [pcf8583_write_register, h1, h2]

/-- The register-bank effect of a write depends only on the register-bank
fields of the context, not on the protocol scalars. -/
lemma pcf8583_write_register_frame (B : TimeBackend) (now : Int) (c c' : Ctx) (addr v : Nat)
    (h1 : c.clock_halt = c'.clock_halt) (h2 : c.clock_halt_latch = c'.clock_halt_latch)
    (h3 : c.offset = c'.offset) (h4 : c.am_pm = c'.am_pm)
    (h5 : c.clock_regs = c'.clock_regs) (h6 : c.ram = c'.ram) :
    (pcf8583_write_register B now c addr v).clock_halt =
      (pcf8583_write_register B now c' addr v).clock_halt ∧
    (pcf8583_write_register B now c addr v).clock_halt_latch =
      (pcf8583_write_register B now c' addr v).clock_halt_latch ∧
    (pcf8583_write_register B now c addr v).offset =
      (pcf8583_write_register B now c' addr v).offset ∧
    (pcf8583_write_register B now c addr v).am_pm =
      (pcf8583_write_register B now c' addr v).am_pm ∧
    (pcf8583_write_register B now c addr v).clock_regs =
      (pcf8583_write_register B now c' addr v).clock_regs ∧
    (pcf8583_write_register B now c addr v).ram =
      (pcf8583_write_register B now c' addr v).ram := by
  by_cases h : 16 ≤ addr
  · rw [pcf8583_write_register_ram B now c addr v h, pcf8583_write_register_ram B now c' addr v h]
    simp [h1, h2, h3, h4, h5, h6]
  · push_neg at h
    interval_cases addr <;>
      by_cases hh1 : c.clock_halt <;> by_cases hh2 : v &&& 0x80 = 0 <;>
        simp [pcf8583_write_register, hh1, hh2, ← h1, ← h2, ← h3, ← h4, ← h5, ← h6]

/-- Driving the data line while the clock is low only latches the level. -/
lemma set_data_low (B : TimeBackend) (now : Int) (c : Ctx) (d : Nat) (h : c.sclk_line = 0) :
    pcf8583_set_data_line B now c d = { c with data_line := if d ≠ 0 then 1 else 0 } := by
  unfold pcf8583_set_data_line
  by_cases hd : c.data_line = (if d ≠ 0 then 1 else 0)
  · rw [if_pos hd]
    conv_rhs => rw [← hd]
  · rw [if_neg hd, if_neg (by simp [h])]

/-- A rising clock edge has no protocol effect. -/
lemma set_clk_rise (B : TimeBackend) (now : Int) (c : Ctx) (h : c.sclk_line = 0) :
    pcf8583_set_clk_line B now c 1 = { c with sclk_line := 1 } := by
  unfold pcf8583_set_clk_line
  rw [if_neg (by simp [h])]
  simp

/-- A falling clock edge dispatches on the protocol state. -/
lemma set_clk_fall (B : TimeBackend) (now : Int) (c : Ctx) (h : c.sclk_line ≠ 0) :
    pcf8583_set_clk_line B now c 0 =
      { (match c.state with
          | .START_WAIT => { c with state := .GET_ADDRESS }
          | .GET_ADDRESS => pcf8583_next_address_bit c
          | .GET_REG_NR => pcf8583_next_reg_nr_bit c
          | .READ_REGS => pcf8583_next_read_bit c
          | .WRITE_REGS => pcf8583_next_write_bit B now c
          | .READ_ACK => pcf8583_validate_read_ack c
          | .ADDRESS_READ_ACK =>
              { c with state := .READ_REGS, reg := pcf8583_read_register c c.reg_ptr, bit := 0 }
          | .REG_NR_ACK => { c with state := .WRITE_REGS, reg := 0, bit := 0 }
          | .WRITE_ACK => { c with state := .WRITE_REGS, reg := 0, bit := 0 }
          | .ADDRESS_WRITE_ACK => { c with state := .GET_REG_NR, reg := 0, bit := 0 }
          | .IDLE => c) with sclk_line := 0 } := by
  unfold pcf8583_set_clk_line
  rw [if_neg (by simpa using h)]
  simp

/-- A data-line fall with the clock high is a START. -/
lemma set_data_start (B : TimeBackend) (now : Int) (c : Ctx)
    (hd : c.data_line ≠ 0) (hc : c.sclk_line ≠ 0) :
    pcf8583_set_data_line B now c 0 =
      { pcf8583_i2c_start B now c with
          state := .START_WAIT, reg := 0, bit := 0, data_line := 0 } := by
  unfold pcf8583_set_data_line
  rw [if_neg (by simpa using hd), if_pos hc, if_neg (by simp)]
  simp

/-- The level fed for a byte bit is already normalised. -/
lemma tb_norm (v i : Nat) : (if tb v i ≠ 0 then 1 else 0) = tb v i := by
  unfold tb
  by_cases h : v.testBit i <;> simp [h]

/-- Reconstruction: shifting the eight bits of a byte in MSB-first
reassembles the byte. -/
lemma byte_assemble (v : Nat) (hv : v < 256) :
    tb v 7 <<< 7 ||| tb v 6 <<< 6 ||| tb v 5 <<< 5 ||| tb v 4 <<< 4 ||| tb v 3 <<< 3 |||
      tb v 2 <<< 2 ||| tb v 1 <<< 1 ||| tb v 0 = v := by
  have h : ∀ w : Fin 256,
      tb w.1 7 <<< 7 ||| tb w.1 6 <<< 6 ||| tb w.1 5 <<< 5 ||| tb w.1 4 <<< 4 |||
        tb w.1 3 <<< 3 ||| tb w.1 2 <<< 2 ||| tb w.1 1 <<< 1 ||| tb w.1 0 = w.1 := by decide
  exact h ⟨v, hv⟩

/-- Feeding one bit in `GET_REG_NR`: shift it in; the 8th bit commits the
pointer byte. -/
lemma feed3_get_reg_nr (B : TimeBackend) (now : Int) (c : Ctx) (b : Nat)
    (hb : (if b ≠ 0 then 1 else 0) = b) (hck : c.sclk_line = 0)
    (hst : c.state = .GET_REG_NR) :
    run B (feed3 now b) c =
      if c.bit + 1 = 8 then
        { c with data_line := b, sclk_line := 0,
                 reg := c.reg ||| (b <<< (7 - c.bit)), bit := c.bit + 1,
                 state := .REG_NR_ACK, reg_ptr := c.reg ||| (b <<< (7 - c.bit)) }
      else
        { c with data_line := b, sclk_line := 0,
                 reg := c.reg ||| (b <<< (7 - c.bit)), bit := c.bit + 1 } := by
  have s1 : step B now (.data b) c = { c with data_line := b } := by
    show pcf8583_set_data_line B now c b = _
    rw [set_data_low B now c b hck, hb]
  have s2 : step B now (.clk 1) { c with data_line := b } =
      { c with data_line := b, sclk_line := 1 } :=
    set_clk_rise B now { c with data_line := b } hck
  have s3 : step B now (.clk 0) { c with data_line := b, sclk_line := 1 } =
      (if c.bit + 1 = 8 then
        { c with data_line := b, sclk_line := 0,
                 reg := c.reg ||| (b <<< (7 - c.bit)), bit := c.bit + 1,
                 state := .REG_NR_ACK, reg_ptr := c.reg ||| (b <<< (7 - c.bit)) }
      else
        { c with data_line := b, sclk_line := 0,
                 reg := c.reg ||| (b <<< (7 - c.bit)), bit := c.bit + 1 }) := by
    show pcf8583_set_clk_line B now { c with data_line := b, sclk_line := 1 } 0 = _
    rw [set_clk_fall B now { c with data_line := b, sclk_line := 1 } (by simp)]
    have hst' : ({ c with data_line := b, sclk_line := 1 } : Ctx).state = PState.GET_REG_NR := hst
    rw [hst']
    unfold pcf8583_next_reg_nr_bit
    by_cases hbit : c.bit + 1 = 8 <;> simp [hbit]
  show run B [(now, .data b), (now, .clk 1), (now, .clk 0)] c = _
  simp only [run, List.foldl]
  rw [s1, s2, s3]

/-- Feeding one bit in `GET_ADDRESS`: shift it in; the 8th bit compares
the assembled byte against the device addresses. -/
lemma feed3_get_address (B : TimeBackend) (now : Int) (c : Ctx) (b : Nat)
    (hb : (if b ≠ 0 then 1 else 0) = b) (hck : c.sclk_line = 0)
    (hst : c.state = .GET_ADDRESS) :
    run B (feed3 now b) c =
      if c.bit + 1 = 8 then
        (if c.reg ||| (b <<< (7 - c.bit)) = 0xa0 then
          { c with data_line := b, sclk_line := 0,
                   reg := c.reg ||| (b <<< (7 - c.bit)), bit := c.bit + 1,
                   state := .ADDRESS_WRITE_ACK }
        else if c.reg ||| (b <<< (7 - c.bit)) = 0xa1 then
          { c with data_line := b, sclk_line := 0,
                   reg := c.reg ||| (b <<< (7 - c.bit)), bit := c.bit + 1,
                   state := .ADDRESS_READ_ACK }
        else
          { c with data_line := b, sclk_line := 0,
                   reg := c.reg ||| (b <<< (7 - c.bit)), bit := c.bit + 1,
                   state := .IDLE })
      else
        { c with data_line := b, sclk_line := 0,
                 reg := c.reg ||| (b <<< (7 - c.bit)), bit := c.bit + 1 } := by
  have s1 : step B now (.data b) c = { c with data_line := b } := by
    show pcf8583_set_data_line B now c b = _
    rw [set_data_low B now c b hck, hb]
  have s2 : step B now (.clk 1) { c with data_line := b } =
      { c with data_line := b, sclk_line := 1 } :=
    set_clk_rise B now { c with data_line := b } hck
  have s3 : step B now (.clk 0) { c with data_line := b, sclk_line := 1 } =
      (if c.bit + 1 = 8 then
        (if c.reg ||| (b <<< (7 - c.bit)) = 0xa0 then
          { c with data_line := b, sclk_line := 0,
                   reg := c.reg ||| (b <<< (7 - c.bit)), bit := c.bit + 1,
                   state := .ADDRESS_WRITE_ACK }
        else if c.reg ||| (b <<< (7 - c.bit)) = 0xa1 then
          { c with data_line := b, sclk_line := 0,
                   reg := c.reg ||| (b <<< (7 - c.bit)), bit := c.bit + 1,
                   state := .ADDRESS_READ_ACK }
        else
          { c with data_line := b, sclk_line := 0,
                   reg := c.reg ||| (b <<< (7 - c.bit)), bit := c.bit + 1,
                   state := .IDLE })
      else
        { c with data_line := b, sclk_line := 0,
                 reg := c.reg ||| (b <<< (7 - c.bit)), bit := c.bit + 1 }) := by
    show pcf8583_set_clk_line B now { c with data_line := b, sclk_line := 1 } 0 = _
    rw [set_clk_fall B now { c with data_line := b, sclk_line := 1 } (by simp)]
    have hst' : ({ c with data_line := b, sclk_line := 1 } : Ctx).state = PState.GET_ADDRESS := hst
    rw [hst']
    unfold pcf8583_next_address_bit
    by_cases hbit : c.bit + 1 = 8
    · by_cases ha0 : c.reg ||| (b <<< (7 - c.bit)) = 0xa0
      · simp [hbit, ha0]
      · by_cases ha1 : c.reg ||| (b <<< (7 - c.bit)) = 0xa1 <;> simp [hbit, ha0, ha1]
    · simp [hbit]
  show run B [(now, .data b), (now, .clk 1), (now, .clk 0)] c = _
  simp only [run, List.foldl]
  rw [s1, s2, s3]

/-- Feeding one bit in `WRITE_REGS`: shift it in; the 8th bit commits the
byte through the register-write operation and advances the pointer. -/
lemma feed3_write_regs (B : TimeBackend) (now : Int) (c : Ctx) (b : Nat)
    (hb : (if b ≠ 0 then 1 else 0) = b) (hck : c.sclk_line = 0)
    (hst : c.state = .WRITE_REGS) :
    run B (feed3 now b) c =
      if c.bit + 1 = 8 then
        { pcf8583_write_register B now
            { c with data_line := b, sclk_line := 1,
                     reg := c.reg ||| (b <<< (7 - c.bit)), bit := c.bit + 1 }
            c.reg_ptr (c.reg ||| (b <<< (7 - c.bit))) with
            state := .WRITE_ACK, reg_ptr := (c.reg_ptr + 1) % 256, sclk_line := 0 }
      else
        { c with data_line := b, sclk_line := 0,
                 reg := c.reg ||| (b <<< (7 - c.bit)), bit := c.bit + 1 } := by
  have s1 : step B now (.data b) c = { c with data_line := b } := by
    show pcf8583_set_data_line B now c b = _
    rw [set_data_low B now c b hck, hb]
  have s2 : step B now (.clk 1) { c with data_line := b } =
      { c with data_line := b, sclk_line := 1 } :=
    set_clk_rise B now { c with data_line := b } hck
  have s3 : step B now (.clk 0) { c with data_line := b, sclk_line := 1 } =
      (if c.bit + 1 = 8 then
        { pcf8583_write_register B now
            { c with data_line := b, sclk_line := 1,
                     reg := c.reg ||| (b <<< (7 - c.bit)), bit := c.bit + 1 }
            c.reg_ptr (c.reg ||| (b <<< (7 - c.bit))) with
            state := .WRITE_ACK, reg_ptr := (c.reg_ptr + 1) % 256, sclk_line := 0 }
      else
        { c with data_line := b, sclk_line := 0,
                 reg := c.reg ||| (b <<< (7 - c.bit)), bit := c.bit + 1 }) := by
    show pcf8583_set_clk_line B now { c with data_line := b, sclk_line := 1 } 0 = _
    rw [set_clk_fall B now { c with data_line := b, sclk_line := 1 } (by simp)]
    have hst' : ({ c with data_line := b, sclk_line := 1 } : Ctx).state = PState.WRITE_REGS := hst
    rw [hst']
    unfold pcf8583_next_write_bit
    by_cases hbit : c.bit + 1 = 8
    · have hsc := (pcf8583_write_register_scalars B now
        { c with state := PState.WRITE_REGS, data_line := b, sclk_line := 1,
                 reg := c.reg ||| (b <<< (7 - c.bit)), bit := 8 }
        c.reg_ptr (c.reg ||| (b <<< (7 - c.bit)))).2.2.1
      simp only at hsc
      simp [hbit, hst, hsc]
    · simp [hbit]
  show run B [(now, .data b), (now, .clk 1), (now, .clk 0)] c = _
  simp only [run, List.foldl]
  rw [s1, s2, s3]

/-- Clocking a whole pointer byte in `GET_REG_NR` commits it to `reg_ptr`
and moves to `REG_NR_ACK`. -/
lemma feedByte_get_reg_nr (B : TimeBackend) (now : Int) (c : Ctx) (v : Nat)
    (hck : c.sclk_line = 0) (hst : c.state = .GET_REG_NR) (hbit : c.bit = 0)
    (hreg : c.reg = 0) (hv : v < 256) :
    run B (feedByteEvs now v) c =
      { c with data_line := tb v 0, sclk_line := 0, reg := v, bit := 8,
               state := .REG_NR_ACK, reg_ptr := v } := by
  simp only [feedByteEvs, run_append]
  rw [feed3_get_reg_nr B now c (tb v 7) (tb_norm v 7) hck hst]
  simp [hbit, hreg]
  rw [feed3_get_reg_nr B now _ (tb v 6) (tb_norm v 6) (by rfl) (by exact hst)]
  simp
  rw [feed3_get_reg_nr B now _ (tb v 5) (tb_norm v 5) (by rfl) (by exact hst)]
  simp
  rw [feed3_get_reg_nr B now _ (tb v 4) (tb_norm v 4) (by rfl) (by exact hst)]
  simp
  rw [feed3_get_reg_nr B now _ (tb v 3) (tb_norm v 3) (by rfl) (by exact hst)]
  simp
  rw [feed3_get_reg_nr B now _ (tb v 2) (tb_norm v 2) (by rfl) (by exact hst)]
  simp
  rw [feed3_get_reg_nr B now _ (tb v 1) (tb_norm v 1) (by rfl) (by exact hst)]
  simp
  rw [feed3_get_reg_nr B now _ (tb v 0) (tb_norm v 0) (by rfl) (by exact hst)]
  simp [byte_assemble v hv]

/-- Clocking the write-select device address 0xa0 in `GET_ADDRESS` ends in
`ADDRESS_WRITE_ACK`. -/
lemma feedByte_address_a0 (B : TimeBackend) (now : Int) (c : Ctx)
    (hck : c.sclk_line = 0) (hst : c.state = .GET_ADDRESS) (hbit : c.bit = 0)
    (hreg : c.reg = 0) :
    run B (feedByteEvs now 0xa0) c =
      { c with data_line := 0, sclk_line := 0, reg := 0xa0, bit := 8,
               state := .ADDRESS_WRITE_ACK } := by
  have t7 : tb 0xa0 7 = 1 := by decide
  have t6 : tb 0xa0 6 = 0 := by decide
  have t5 : tb 0xa0 5 = 1 := by decide
  have t4 : tb 0xa0 4 = 0 := by decide
  have t3 : tb 0xa0 3 = 0 := by decide
  have t2 : tb 0xa0 2 = 0 := by decide
  have t1 : tb 0xa0 1 = 0 := by decide
  have t0 : tb 0xa0 0 = 0 := by decide
  simp only [feedByteEvs, run_append]
  rw [feed3_get_address B now c (tb 0xa0 7) (tb_norm 0xa0 7) hck hst]
  simp [hbit, hreg, t7]
  rw [feed3_get_address B now _ (tb 0xa0 6) (tb_norm 0xa0 6) (by rfl) (by exact hst)]
  simp [t6]
  rw [feed3_get_address B now _ (tb 0xa0 5) (tb_norm 0xa0 5) (by rfl) (by exact hst)]
  simp [t5]
  rw [feed3_get_address B now _ (tb 0xa0 4) (tb_norm 0xa0 4) (by rfl) (by exact hst)]
  simp [t4]
  rw [feed3_get_address B now _ (tb 0xa0 3) (tb_norm 0xa0 3) (by rfl) (by exact hst)]
  simp [t3]
  rw [feed3_get_address B now _ (tb 0xa0 2) (tb_norm 0xa0 2) (by rfl) (by exact hst)]
  simp [t2]
  rw [feed3_get_address B now _ (tb 0xa0 1) (tb_norm 0xa0 1) (by rfl) (by exact hst)]
  simp [t1]
  rw [feed3_get_address B now _ (tb 0xa0 0) (tb_norm 0xa0 0) (by rfl) (by exact hst)]
  simp [t0]

/-- Clocking a whole data byte in `WRITE_REGS` commits it through the
register-write operation at the current pointer, which then advances. -/
lemma feedByte_write_regs (B : TimeBackend) (now : Int) (c : Ctx) (v : Nat)
    (hck : c.sclk_line = 0) (hst : c.state = .WRITE_REGS) (hbit : c.bit = 0)
    (hreg : c.reg = 0) (hv : v < 256) :
    run B (feedByteEvs now v) c =
      { pcf8583_write_register B now
          { c with data_line := tb v 0, sclk_line := 1, reg := v, bit := 8 }
          c.reg_ptr v with
          state := .WRITE_ACK, reg_ptr := (c.reg_ptr + 1) % 256, sclk_line := 0 } := by
  simp only [feedByteEvs, run_append]
  rw [feed3_write_regs B now c (tb v 7) (tb_norm v 7) hck hst]
  simp [hbit, hreg]
  rw [feed3_write_regs B now _ (tb v 6) (tb_norm v 6) (by rfl) (by exact hst)]
  simp
  rw [feed3_write_regs B now _ (tb v 5) (tb_norm v 5) (by rfl) (by exact hst)]
  simp
  rw [feed3_write_regs B now _ (tb v 4) (tb_norm v 4) (by rfl) (by exact hst)]
  simp
  rw [feed3_write_regs B now _ (tb v 3) (tb_norm v 3) (by rfl) (by exact hst)]
  simp
  rw [feed3_write_regs B now _ (tb v 2) (tb_norm v 2) (by rfl) (by exact hst)]
  simp
  rw [feed3_write_regs B now _ (tb v 1) (tb_norm v 1) (by rfl) (by exact hst)]
  simp
  rw [feed3_write_regs B now _ (tb v 0) (tb_norm v 0) (by rfl) (by exact hst)]
  simp [byte_assemble v hv, hst]

/-- The ack clock pulse after `ADDRESS_WRITE_ACK` enters `GET_REG_NR`. -/
lemma ackPulse_address_write_ack (B : TimeBackend) (now : Int) (c : Ctx)
    (hck : c.sclk_line = 0) (hst : c.state = .ADDRESS_WRITE_ACK) :
    run B (ackPulse now) c =
      { c with state := .GET_REG_NR, reg := 0, bit := 0, sclk_line := 0 } := by
  have s2 : step B now (.clk 1) c = { c with sclk_line := 1 } := set_clk_rise B now c hck
  have s3 : step B now (.clk 0) { c with sclk_line := 1 } =
      { c with state := .GET_REG_NR, reg := 0, bit := 0, sclk_line := 0 } := by
    show pcf8583_set_clk_line B now { c with sclk_line := 1 } 0 = _
    rw [set_clk_fall B now { c with sclk_line := 1 } (by simp)]
    have hst' : ({ c with sclk_line := 1 } : Ctx).state = PState.ADDRESS_WRITE_ACK := hst
    rw [hst']
  show run B [(now, .clk 1), (now, .clk 0)] c = _
  simp only [run, List.foldl]
  rw [s2, s3]

/-- The ack clock pulse after `REG_NR_ACK` enters `WRITE_REGS`. -/
lemma ackPulse_reg_nr_ack (B : TimeBackend) (now : Int) (c : Ctx)
    (hck : c.sclk_line = 0) (hst : c.state = .REG_NR_ACK) :
    run B (ackPulse now) c =
      { c with state := .WRITE_REGS, reg := 0, bit := 0, sclk_line := 0 } := by
  have s2 : step B now (.clk 1) c = { c with sclk_line := 1 } := set_clk_rise B now c hck
  have s3 : step B now (.clk 0) { c with sclk_line := 1 } =
      { c with state := .WRITE_REGS, reg := 0, bit := 0, sclk_line := 0 } := by
    show pcf8583_set_clk_line B now { c with sclk_line := 1 } 0 = _
    rw [set_clk_fall B now { c with sclk_line := 1 } (by simp)]
    have hst' : ({ c with sclk_line := 1 } : Ctx).state = PState.REG_NR_ACK := hst
    rw [hst']
  show run B [(now, .clk 1), (now, .clk 0)] c = _
  simp only [run, List.foldl]
  rw [s2, s3]

/-- C1: a complete write transaction (START, address 0xa0, ack, pointer
byte `P`, ack, one data byte `V` with its ack edge) leaves the register
bank exactly as one application of the register-write operation at
address `P` with value `V` to the post-START context, and leaves
`register_pointer = P + 1` modulo the combined 16 + 240 address space. -/
theorem pcf8583_write_transaction (B : TimeBackend) (now : Int) (c : Ctx) (P V : Nat)
    (hs : c.sclk_line = 1) (hd : c.data_line = 1) (hP : P < 256) (hV : V < 256) :
    (run B (writeTransactionEvs now P V) c).clock_regs =
      (pcf8583_write_register B now (pcf8583_i2c_start B now c) P V).clock_regs ∧
    (run B (writeTransactionEvs now P V) c).ram =
      (pcf8583_write_register B now (pcf8583_i2c_start B now c) P V).ram ∧
    (run B (writeTransactionEvs now P V) c).offset =
      (pcf8583_write_register B now (pcf8583_i2c_start B now c) P V).offset ∧
    (run B (writeTransactionEvs now P V) c).clock_halt =
      (pcf8583_write_register B now (pcf8583_i2c_start B now c) P V).clock_halt ∧
    (run B (writeTransactionEvs now P V) c).clock_halt_latch =
      (pcf8583_write_register B now (pcf8583_i2c_start B now c) P V).clock_halt_latch ∧
    (run B (writeTransactionEvs now P V) c).am_pm =
      (pcf8583_write_register B now (pcf8583_i2c_start B now c) P V).am_pm ∧
    (run B (writeTransactionEvs now P V) c).reg_ptr =
      (P + 1) % (PCF8583_REG_SIZE + PCF8583_RAM_SIZE) ∧
    (run B (writeTransactionEvs now P V) c).state = PState.WRITE_ACK := by
  have hd' : c.data_line ≠ 0 := by simp [hd]
  have hs' : c.sclk_line ≠ 0 := by simp [hs]
  have h1 : run B [(now, Call.data 0), (now, Call.clk 0)] c =
      { pcf8583_i2c_start B now c with
          state := .GET_ADDRESS, reg := 0, bit := 0, data_line := 0, sclk_line := 0 } := by
    simp only [run, List.foldl]
    have s1 : step B now (.data 0) c =
        { pcf8583_i2c_start B now c with
            state := .START_WAIT, reg := 0, bit := 0, data_line := 0 } := by
      show pcf8583_set_data_line B now c 0 = _
      rw [set_data_start B now c hd' hs']
    rw [s1]
    have s2 : step B now (.clk 0)
        { pcf8583_i2c_start B now c with
            state := .START_WAIT, reg := 0, bit := 0, data_line := 0 } =
        { pcf8583_i2c_start B now c with
            state := .GET_ADDRESS, reg := 0, bit := 0, data_line := 0, sclk_line := 0 } := by
      show pcf8583_set_clk_line B now
        { pcf8583_i2c_start B now c with
            state := .START_WAIT, reg := 0, bit := 0, data_line := 0 } 0 = _
      rw [set_clk_fall B now
        { pcf8583_i2c_start B now c with
            state := .START_WAIT, reg := 0, bit := 0, data_line := 0 } (by exact hs')]
    rw [s2]
  have h2 : run B (feedByteEvs now 0xa0)
      { pcf8583_i2c_start B now c with
          state := .GET_ADDRESS, reg := 0, bit := 0, data_line := 0, sclk_line := 0 } =
      { pcf8583_i2c_start B now c with
          state := .ADDRESS_WRITE_ACK, reg := 0xa0, bit := 8,
          data_line := 0, sclk_line := 0 } :=
    feedByte_address_a0 B now _ rfl rfl rfl rfl
  have h3 : run B (ackPulse now)
      { pcf8583_i2c_start B now c with
          state := .ADDRESS_WRITE_ACK, reg := 0xa0, bit := 8,
          data_line := 0, sclk_line := 0 } =
      { pcf8583_i2c_start B now c with
          state := .GET_REG_NR, reg := 0, bit := 0, data_line := 0, sclk_line := 0 } :=
    ackPulse_address_write_ack B now _ rfl rfl
  have h4 : run B (feedByteEvs now P)
      { pcf8583_i2c_start B now c with
          state := .GET_REG_NR, reg := 0, bit := 0, data_line := 0, sclk_line := 0 } =
      { pcf8583_i2c_start B now c with
          state := .REG_NR_ACK, reg := P, bit := 8, data_line := tb P 0,
          sclk_line := 0, reg_ptr := P } :=
    feedByte_get_reg_nr B now _ P rfl rfl rfl rfl hP
  have h5 : run B (ackPulse now)
      { pcf8583_i2c_start B now c with
          state := .REG_NR_ACK, reg := P, bit := 8, data_line := tb P 0,
          sclk_line := 0, reg_ptr := P } =
      { pcf8583_i2c_start B now c with
          state := .WRITE_REGS, reg := 0, bit := 0, data_line := tb P 0,
          sclk_line := 0, reg_ptr := P } :=
    ackPulse_reg_nr_ack B now _ rfl rfl
  have h6 : run B (feedByteEvs now V)
      { pcf8583_i2c_start B now c with
          state := .WRITE_REGS, reg := 0, bit := 0, data_line := tb P 0,
          sclk_line := 0, reg_ptr := P } =
      { pcf8583_write_register B now
          { pcf8583_i2c_start B now c with
              state := .WRITE_REGS, reg := V, bit := 8, data_line := tb V 0,
              sclk_line := 1, reg_ptr := P } P V with
          state := .WRITE_ACK, reg_ptr := (P + 1) % 256, sclk_line := 0 } :=
    feedByte_write_regs B now _ V rfl rfl rfl rfl hV
  have hrun : run B (writeTransactionEvs now P V) c =
      { pcf8583_write_register B now
          { pcf8583_i2c_start B now c with
              state := .WRITE_REGS, reg := V, bit := 8, data_line := tb V 0,
              sclk_line := 1, reg_ptr := P } P V with
          state := .WRITE_ACK, reg_ptr := (P + 1) % 256, sclk_line := 0 } := by
    show run B ([(now, Call.data 0), (now, Call.clk 0)] ++ feedByteEvs now 0xa0 ++
      ackPulse now ++ feedByteEvs now P ++ ackPulse now ++ feedByteEvs now V) c = _
    rw [run_append, run_append, run_append, run_append, run_append,
      h1, h2, h3, h4, h5, h6]
  rw [hrun]
  have hfr := pcf8583_write_register_frame B now
    { pcf8583_i2c_start B now c with
        state := .WRITE_REGS, reg := V, bit := 8, data_line := tb V 0,
        sclk_line := 1, reg_ptr := P }
    (pcf8583_i2c_start B now c) P V rfl rfl rfl rfl rfl rfl
  exact ⟨hfr.2.2.2.2.1, hfr.2.2.2.2.2, hfr.2.2.1, hfr.1, hfr.2.1, hfr.2.2.2.1, rfl, rfl⟩

theorem pcf8583_write_transaction_witness :
    initCtx.sclk_line = 1 ∧ initCtx.data_line = 1 ∧ (20 : Nat) < 256 ∧ (0xAB : Nat) < 256 ∧
    (run testB (writeTransactionEvs 0 20 0xAB) initCtx).ram =
      (pcf8583_write_register testB 0 (pcf8583_i2c_start testB 0 initCtx) 20 0xAB).ram ∧
    (run testB (writeTransactionEvs 0 20 0xAB) initCtx).reg_ptr =
      (20 + 1) % (PCF8583_REG_SIZE + PCF8583_RAM_SIZE) :=
  ⟨rfl, rfl, by decide, by decide,
   (pcf8583_write_transaction testB 0 initCtx 20 0xAB rfl rfl (by decide) (by decide)).2.1,
   (pcf8583_write_transaction testB 0 initCtx 20 0xAB rfl rfl (by decide)
     (by decide)).2.2.2.2.2.2.1⟩

/-- Does this event constitute a START condition in context `c` (data line
falls while the clock line is high)? -/
def isStartEv (c : Ctx) : Ev → Bool
  | (_, .clk _) => false
  | (_, .data d) =>
      let val : Nat := if d ≠ 0 then 1 else 0
      decide (c.data_line ≠ val) && decide (c.sclk_line ≠ 0) && decide (val = 0)

/-- No event of the list performs a START when run from `c`. -/
def noStartRun (B : TimeBackend) : Ctx → List Ev → Bool
  | _, [] => true
  | c, e :: es => !isStartEv c e && noStartRun B (step B e.1 e.2 c) es

lemma next_address_bit_snapshot (c : Ctx) :
    (pcf8583_next_address_bit c).clock_regs_for_read = c.clock_regs_for_read := by
  unfold pcf8583_next_address_bit
  dsimp only
  repeat' split
  all_goals rfl

lemma next_reg_nr_bit_snapshot (c : Ctx) :
    (pcf8583_next_reg_nr_bit c).clock_regs_for_read = c.clock_regs_for_read := by
  unfold pcf8583_next_reg_nr_bit
  dsimp only
  split
  all_goals rfl

lemma next_read_bit_snapshot (c : Ctx) :
    (pcf8583_next_read_bit c).clock_regs_for_read = c.clock_regs_for_read := by
  unfold pcf8583_next_read_bit
  dsimp only
  split
  all_goals rfl

lemma next_write_bit_snapshot (B : TimeBackend) (now : Int) (c : Ctx) :
    (pcf8583_next_write_bit B now c).clock_regs_for_read = c.clock_regs_for_read := by
  unfold pcf8583_next_write_bit
  dsimp only
  split
  · exact (pcf8583_write_register_scalars B now _ _ _).2.2.2.2.2.2.1
  · rfl

lemma validate_read_ack_snapshot (c : Ctx) :
    (pcf8583_validate_read_ack c).clock_regs_for_read = c.clock_regs_for_read := by
  unfold pcf8583_validate_read_ack
  dsimp only
  split
  all_goals rfl

/-- Clock-line operations never touch the read snapshot. -/
lemma set_clk_snapshot (B : TimeBackend) (now : Int) (c : Ctx) (d : Nat) :
    (pcf8583_set_clk_line B now c d).clock_regs_for_read = c.clock_regs_for_read := by
  by_cases h0 : c.sclk_line = (if d ≠ 0 then 1 else 0)
  · unfold pcf8583_set_clk_line
    rw [if_pos h0]
  · by_cases hd : d = 0
    · subst hd
      have h0' : c.sclk_line ≠ 0 := by simpa using h0
      rw [set_clk_fall B now c h0']
      obtain ⟨ch, chl, ap, off, ooff, cr, ocr, crr, ram, oram, st, reg, rp, bit, dl, cl⟩ := c
      cases st <;>
        first
          | rfl
          | exact next_address_bit_snapshot _
          | exact next_reg_nr_bit_snapshot _
          | exact next_read_bit_snapshot _
          | exact next_write_bit_snapshot B now _
          | exact validate_read_ack_snapshot _
    · unfold pcf8583_set_clk_line
      rw [if_neg h0, if_neg (by simp [hd])]

/-- A step that is not a START preserves the read snapshot. -/
lemma step_snapshot (B : TimeBackend) (e : Ev) (c : Ctx)
    (h : isStartEv c e = false) :
    (step B e.1 e.2 c).clock_regs_for_read = c.clock_regs_for_read := by
  obtain ⟨t, call⟩ := e
  cases call with
  | clk d => exact set_clk_snapshot B t c d
  | data d =>
      show (pcf8583_set_data_line B t c d).clock_regs_for_read = _
      by_cases h0 : c.data_line = (if d ≠ 0 then 1 else 0)
      · unfold pcf8583_set_data_line
        rw [if_pos h0]
      · by_cases hs0 : c.sclk_line ≠ 0
        · by_cases hd : d = 0
          · exfalso
            subst hd
            simp [isStartEv, hs0] at h
            exact h0 (by simpa using h)
          · unfold pcf8583_set_data_line
            rw [if_neg h0, if_pos hs0, if_pos (by simp [hd])]
        · unfold pcf8583_set_data_line
          rw [if_neg h0, if_neg hs0]

/-- Running any START-free event sequence preserves the read snapshot. -/
lemma noStartRun_snapshot (B : TimeBackend) (evs : List Ev) (c : Ctx)
    (h : noStartRun B c evs = true) :
    (run B evs c).clock_regs_for_read = c.clock_regs_for_read := by
  induction evs generalizing c with
  | nil => rfl
  | cons e es ih =>
      unfold noStartRun at h
      simp only [Bool.and_eq_true, Bool.not_eq_true'] at h
      show (run B es (step B e.1 e.2 c)).clock_regs_for_read = _
      rw [ih _ h.2, step_snapshot B e c h.1]

/-- C2: the read snapshot is written only by START; any two reads of the
same register address below 16 separated by START-free bus activity (with
host time advancing arbitrarily) return the identical byte. -/
theorem pcf8583_read_snapshot_stable (B : TimeBackend) (evs : List Ev) (c : Ctx) (a : Nat)
    (ha : a < 16) (h : noStartRun B c evs = true) :
    pcf8583_read_register (run B evs c) a = pcf8583_read_register c a := by
  have ha' : a < PCF8583_REG_SIZE := ha
  unfold pcf8583_read_register
  rw [if_pos ha', if_pos ha', noStartRun_snapshot B evs c h]

theorem pcf8583_read_snapshot_stable_witness :
    (3 : Nat) < 16 ∧
    noStartRun testB initCtx [((5 : Int), Call.clk 0), ((9 : Int), Call.clk 1)] = true ∧
    pcf8583_read_register
        (run testB [((5 : Int), Call.clk 0), ((9 : Int), Call.clk 1)] initCtx) 3 =
      pcf8583_read_register initCtx 3 :=
  ⟨by decide, by decide,
   pcf8583_read_snapshot_stable testB _ initCtx 3 (by decide) (by decide)⟩

/-- Does this event complete a written data byte (the falling clock edge
in `WRITE_REGS` that shifts in the 8th bit and commits it)? -/
def isWriteCommitEv (c : Ctx) : Ev → Bool
  | (_, .data _) => false
  | (_, .clk d) =>
      let val : Nat := if d ≠ 0 then 1 else 0
      decide (c.sclk_line ≠ val) && decide (val = 0) &&
        decide (c.state = PState.WRITE_REGS) && decide (c.bit + 1 = 8)

/-- No event of the list commits a written byte when run from `c`. -/
def noCommitRun (B : TimeBackend) : Ctx → List Ev → Bool
  | _, [] => true
  | c, e :: es => !isWriteCommitEv c e && noCommitRun B (step B e.1 e.2 c) es

lemma next_address_bit_ram_regs (c : Ctx) :
    (pcf8583_next_address_bit c).ram = c.ram ∧
    (pcf8583_next_address_bit c).clock_regs = c.clock_regs := by
  unfold pcf8583_next_address_bit
  dsimp only
  repeat' split
  all_goals exact ⟨rfl, rfl⟩

lemma next_reg_nr_bit_ram_regs (c : Ctx) :
    (pcf8583_next_reg_nr_bit c).ram = c.ram ∧
    (pcf8583_next_reg_nr_bit c).clock_regs = c.clock_regs := by
  unfold pcf8583_next_reg_nr_bit
  dsimp only
  split
  all_goals exact ⟨rfl, rfl⟩

lemma next_read_bit_ram_regs (c : Ctx) :
    (pcf8583_next_read_bit c).ram = c.ram ∧
    (pcf8583_next_read_bit c).clock_regs = c.clock_regs := by
  unfold pcf8583_next_read_bit
  dsimp only
  split
  all_goals exact ⟨rfl, rfl⟩

lemma validate_read_ack_ram_regs (c : Ctx) :
    (pcf8583_validate_read_ack c).ram = c.ram ∧
    (pcf8583_validate_read_ack c).clock_regs = c.clock_regs := by
  unfold pcf8583_validate_read_ack
  dsimp only
  split
  all_goals exact ⟨rfl, rfl⟩

/-- Without its 8th bit, a write-bit step does not touch RAM or the
registers. -/
lemma next_write_bit_ram_regs (B : TimeBackend) (now : Int) (c : Ctx)
    (h : c.bit + 1 ≠ 8) :
    (pcf8583_next_write_bit B now c).ram = c.ram ∧
    (pcf8583_next_write_bit B now c).clock_regs = c.clock_regs := by
  unfold pcf8583_next_write_bit
  dsimp only
  rw [if_neg h]
  exact ⟨rfl, rfl⟩

/-- A step that does not commit a written byte preserves RAM and the 16
stored registers. -/
lemma step_ram_regs (B : TimeBackend) (e : Ev) (c : Ctx)
    (h : isWriteCommitEv c e = false) :
    (step B e.1 e.2 c).ram = c.ram ∧ (step B e.1 e.2 c).clock_regs = c.clock_regs := by
  obtain ⟨t, call⟩ := e
  cases call with
  | data d =>
      show (pcf8583_set_data_line B t c d).ram = c.ram ∧
        (pcf8583_set_data_line B t c d).clock_regs = c.clock_regs
      by_cases h0 : c.data_line = (if d ≠ 0 then 1 else 0)
      · unfold pcf8583_set_data_line
        rw [if_pos h0]
        exact ⟨rfl, rfl⟩
      · by_cases hs0 : c.sclk_line ≠ 0
        · by_cases hd : d = 0
          · subst hd
            unfold pcf8583_set_data_line
            rw [if_neg h0, if_pos hs0, if_neg (by simp)]
            exact ⟨rfl, rfl⟩
          · unfold pcf8583_set_data_line
            rw [if_neg h0, if_pos hs0, if_pos (by simp [hd])]
            exact ⟨rfl, rfl⟩
        · unfold pcf8583_set_data_line
          rw [if_neg h0, if_neg hs0]
          exact ⟨rfl, rfl⟩
  | clk d =>
      show (pcf8583_set_clk_line B t c d).ram = c.ram ∧
        (pcf8583_set_clk_line B t c d).clock_regs = c.clock_regs
      by_cases h0 : c.sclk_line = (if d ≠ 0 then 1 else 0)
      · unfold pcf8583_set_clk_line
        rw [if_pos h0]
        exact ⟨rfl, rfl⟩
      · by_cases hd : d = 0
        · subst hd
          have h0' : c.sclk_line ≠ 0 := by simpa using h0
          have hcm : c.state = PState.WRITE_REGS → c.bit + 1 ≠ 8 := by
            intro hw hb
            simp [isWriteCommitEv, h0', hw, hb] at h
          rw [set_clk_fall B t c h0']
          obtain ⟨ch, chl, ap, off, ooff, cr, ocr, crr, ram, oram, st, reg, rp, bit, dl, cl⟩ := c
          cases st <;>
            first
              | exact ⟨rfl, rfl⟩
              | exact ⟨(next_address_bit_ram_regs _).1, (next_address_bit_ram_regs _).2⟩
              | exact ⟨(next_reg_nr_bit_ram_regs _).1, (next_reg_nr_bit_ram_regs _).2⟩
              | exact ⟨(next_read_bit_ram_regs _).1, (next_read_bit_ram_regs _).2⟩
              | exact ⟨(validate_read_ack_ram_regs _).1, (validate_read_ack_ram_regs _).2⟩
              | exact ⟨(next_write_bit_ram_regs B t _ (hcm rfl)).1,
                  (next_write_bit_ram_regs B t _ (hcm rfl)).2⟩
        · unfold pcf8583_set_clk_line
          rw [if_neg h0, if_neg (by simp [hd])]
          exact ⟨rfl, rfl⟩

/-- Running any commit-free event sequence preserves RAM and registers. -/
lemma noCommitRun_ram_regs (B : TimeBackend) (evs : List Ev) (c : Ctx)
    (h : noCommitRun B c evs = true) :
    (run B evs c).ram = c.ram ∧ (run B evs c).clock_regs = c.clock_regs := by
  induction evs generalizing c with
  | nil => exact ⟨rfl, rfl⟩
  | cons e es ih =>
      unfold noCommitRun at h
      simp only [Bool.and_eq_true, Bool.not_eq_true'] at h
      show (run B es (step B e.1 e.2 c)).ram = _ ∧
        (run B es (step B e.1 e.2 c)).clock_regs = _
      have hs := step_ram_regs B e c h.1
      have hr := ih _ h.2
      exact ⟨hr.1.trans hs.1, hr.2.trans hs.2⟩

/-- C6 (amended): any sequence of line operations during which no written
data byte is committed (no falling clock edge completes an 8th bit in
`WRITE_REGS`) leaves the RAM block and the 16 stored registers unchanged;
the protocol state, however, need not end in `IDLE`. -/
theorem pcf8583_no_commit_preserves_ram_regs (B : TimeBackend) (evs : List Ev) (c : Ctx)
    (h : noCommitRun B c evs = true) :
    (run B evs c).ram = c.ram ∧ (run B evs c).clock_regs = c.clock_regs :=
  noCommitRun_ram_regs B evs c h

theorem pcf8583_no_commit_preserves_ram_regs_witness :
    noCommitRun testB initCtx
        [((0 : Int), Call.data 0), ((1 : Int), Call.clk 0), ((2 : Int), Call.clk 1)] = true ∧
    (run testB [((0 : Int), Call.data 0), ((1 : Int), Call.clk 0), ((2 : Int), Call.clk 1)]
        initCtx).ram = initCtx.ram :=
  ⟨by decide,
   (pcf8583_no_commit_preserves_ram_regs testB
     [((0 : Int), Call.data 0), ((1 : Int), Call.clk 0), ((2 : Int), Call.clk 1)]
     initCtx (by decide)).1⟩

/-- C6 (counterexample to the claim as stated): a bare START — which does
not form a START + recognized-address + ack sequence reaching any byte
commit — leaves the chip in `START_WAIT`, not `IDLE`. -/
theorem pcf8583_incomplete_sequence_not_idle :
    noCommitRun testB initCtx [((0 : Int), Call.data 0)] = true ∧
    (run testB [((0 : Int), Call.data 0)] initCtx).state = PState.START_WAIT ∧
    (run testB [((0 : Int), Call.data 0)] initCtx).state ≠ PState.IDLE := by
  refine ⟨by decide, by decide, by decide⟩

/-- The shifted-in bit keeps the shift register below 256. -/
lemma shift_or_lt (r dl k : Nat) (hr : r < 256) (hdl : dl ≤ 1) :
    r ||| (dl <<< (7 - k)) < 256 := by
  have h2 : dl <<< (7 - k) < 2 ^ 8 := by
    calc dl <<< (7 - k) = dl * 2 ^ (7 - k) := Nat.shiftLeft_eq dl (7 - k)
    _ ≤ 1 * 2 ^ (7 - k) := Nat.mul_le_mul_right _ hdl
    _ = 2 ^ (7 - k) := one_mul _
    _ ≤ 2 ^ 7 := Nat.pow_le_pow_right (by norm_num) (by omega)
    _ < 2 ^ 8 := by norm_num
  have hr' : r < 2 ^ 8 := by omega
  have h := Nat.or_lt_two_pow hr' h2
  omega

lemma next_address_bit_ptr (c : Ctx) :
    (pcf8583_next_address_bit c).reg_ptr = c.reg_ptr := by
  unfold pcf8583_next_address_bit
  dsimp only
  repeat' split
  all_goals rfl

lemma next_read_bit_ptr (c : Ctx) :
    (pcf8583_next_read_bit c).reg_ptr = c.reg_ptr := by
  unfold pcf8583_next_read_bit
  dsimp only
  split
  all_goals rfl

lemma next_reg_nr_bit_ptr_lt (c : Ctx) (hptr : c.reg_ptr < 256) (hreg : c.reg < 256)
    (hdl : c.data_line ≤ 1) :
    (pcf8583_next_reg_nr_bit c).reg_ptr < 256 := by
  unfold pcf8583_next_reg_nr_bit
  dsimp only
  split
  · exact shift_or_lt c.reg c.data_line c.bit hreg hdl
  · exact hptr

lemma next_write_bit_ptr_lt (B : TimeBackend) (now : Int) (c : Ctx)
    (hptr : c.reg_ptr < 256) :
    (pcf8583_next_write_bit B now c).reg_ptr < 256 := by
  unfold pcf8583_next_write_bit
  dsimp only
  split
  · exact Nat.mod_lt _ (by norm_num)
  · exact hptr

lemma validate_read_ack_ptr_lt (c : Ctx) (hptr : c.reg_ptr < 256) :
    (pcf8583_validate_read_ack c).reg_ptr < 256 := by
  unfold pcf8583_validate_read_ack
  dsimp only
  split
  · exact Nat.mod_lt _ (by norm_num)
  · exact hptr

/-- C7: every completed byte transfer leaves `register_pointer` inside the
combined 16 + 240 address space: clock operations preserve the bound, a
write commit and an acked read byte advance the pointer by one modulo the
address space, a pointer commit installs the assembled byte, and every
in-range address indexes within the registers or the RAM block. -/
theorem pcf8583_reg_ptr_wraps (B : TimeBackend) (now : Int) (c : Ctx) (d : Nat)
    (hptr : c.reg_ptr < PCF8583_REG_SIZE + PCF8583_RAM_SIZE)
    (hreg : c.reg < PCF8583_REG_SIZE + PCF8583_RAM_SIZE)
    (hdl : c.data_line ≤ 1) :
    ((pcf8583_set_clk_line B now c d).reg_ptr < PCF8583_REG_SIZE + PCF8583_RAM_SIZE) ∧
    ((pcf8583_set_data_line B now c d).reg_ptr = c.reg_ptr) ∧
    (c.sclk_line ≠ 0 → c.state = PState.WRITE_REGS → c.bit + 1 = 8 →
      (pcf8583_set_clk_line B now c 0).reg_ptr =
        (c.reg_ptr + 1) % (PCF8583_REG_SIZE + PCF8583_RAM_SIZE)) ∧
    (c.sclk_line ≠ 0 → c.state = PState.READ_ACK → c.data_line = 0 →
      (pcf8583_set_clk_line B now c 0).reg_ptr =
        (c.reg_ptr + 1) % (PCF8583_REG_SIZE + PCF8583_RAM_SIZE)) ∧
    (c.sclk_line ≠ 0 → c.state = PState.GET_REG_NR → c.bit + 1 = 8 →
      (pcf8583_set_clk_line B now c 0).reg_ptr =
        c.reg ||| (c.data_line <<< (7 - c.bit))) ∧
    (∀ a, a < PCF8583_REG_SIZE + PCF8583_RAM_SIZE →
      a < PCF8583_REG_SIZE ∨ a - PCF8583_REG_SIZE < PCF8583_RAM_SIZE) := by
  simp only [show PCF8583_REG_SIZE + PCF8583_RAM_SIZE = 256 from rfl] at hptr hreg ⊢
  refine ⟨?_, ?_, ?_, ?_, ?_, ?_⟩
  · by_cases h0 : c.sclk_line = (if d ≠ 0 then 1 else 0)
    · unfold pcf8583_set_clk_line
      rw [if_pos h0]
      exact hptr
    · by_cases hd : d = 0
      · subst hd
        have h0' : c.sclk_line ≠ 0 := by simpa using h0
        rw [set_clk_fall B now c h0']
        obtain ⟨ch, chl, ap, off, ooff, cr, ocr, crr, ram, oram, st, reg, rp, bit, dl, cl⟩ := c
        cases st <;>
          first
            | exact hptr
            | exact lt_of_eq_of_lt (next_address_bit_ptr _) hptr
            | exact lt_of_eq_of_lt (next_read_bit_ptr _) hptr
            | exact next_reg_nr_bit_ptr_lt _ hptr hreg hdl
            | exact next_write_bit_ptr_lt B now _ hptr
            | exact validate_read_ack_ptr_lt _ hptr
      · unfold pcf8583_set_clk_line
        rw [if_neg h0, if_neg (by simp [hd])]
        exact hptr
  · by_cases h0 : c.data_line = (if d ≠ 0 then 1 else 0)
    · unfold pcf8583_set_data_line
      rw [if_pos h0]
    · by_cases hs0 : c.sclk_line ≠ 0
      · by_cases hd : d = 0
        · subst hd
          unfold pcf8583_set_data_line
          rw [if_neg h0, if_pos hs0, if_neg (by simp)]
          rfl
        · unfold pcf8583_set_data_line
          rw [if_neg h0, if_pos hs0, if_pos (by simp [hd])]
      · unfold pcf8583_set_data_line
        rw [if_neg h0, if_neg hs0]
  · intro hck hw hb
    rw [set_clk_fall B now c hck, hw]
    dsimp only
    unfold pcf8583_next_write_bit
    dsimp only
    rw [if_pos hb]
    rw [(pcf8583_write_register_scalars B now _ _ _).2.2.1]
  · intro hck hw hdl0
    rw [set_clk_fall B now c hck, hw]
    dsimp only
    unfold pcf8583_validate_read_ack
    dsimp only
    rw [if_pos hdl0]
  · intro hck hw hb
    rw [set_clk_fall B now c hck, hw]
    dsimp only
    unfold pcf8583_next_reg_nr_bit
    dsimp only
    rw [if_pos hb]
  · intro a ha
    simp only [PCF8583_REG_SIZE, PCF8583_RAM_SIZE]
    omega

def c7w : Ctx :=
  { initCtx with state := .WRITE_REGS, bit := 7, reg := 0xAB, reg_ptr := 255,
                 sclk_line := 1, data_line := 1 }

theorem pcf8583_reg_ptr_wraps_witness :
    c7w.reg_ptr < PCF8583_REG_SIZE + PCF8583_RAM_SIZE ∧
    c7w.reg < PCF8583_REG_SIZE + PCF8583_RAM_SIZE ∧
    c7w.data_line ≤ 1 ∧
    (pcf8583_set_clk_line testB 0 c7w 0).reg_ptr =
      (c7w.reg_ptr + 1) % (PCF8583_REG_SIZE + PCF8583_RAM_SIZE) :=
  ⟨by decide, by decide, by decide,
   (pcf8583_reg_ptr_wraps testB 0 c7w 0 (by decide) (by decide)
     (by decide)).2.2.1 (by decide) rfl (by decide)⟩
